import Mathlib

/-!
Verification of the DDL-compilation core of aerich (`aerich/ddl/__init__.py`,
class `BaseDDL`).  The Python class is a collection of pure string-building
methods over two external collaborators: the tortoise schema generator (the
"Introspector" of the spec) and the model metadata.  Both collaborators are
modelled abstractly: the schema generator as a structure of opaque function
fields, the model as a record exposing its db table name.  Every method of
`BaseDDL` that the claims touch is translated statement by statement.
-/

namespace Aerich

/-- A Python value as it can appear in the `default` slot of a field-describe
dict: `None`, a literal scalar (string / int / bool / float rendered as a
string), an `Enum` member carrying its underlying `.value`, or the opaque
default-function marker recognised by `aerich.utils.is_default_function`. -/
inductive PyVal where
  | vNone : PyVal
  | vStr : String → PyVal
  | vInt : Int → PyVal
  | vBool : Bool → PyVal
  | vEnum : PyVal → PyVal
  | vFuncMarker : String → PyVal
deriving DecidableEq

/-- Modelled from the spec: `aerich.utils.is_default_function` is imported
from `aerich/utils.py`, which is not among the provided sources.  The spec
describes it as recognising "an opaque callable/generator marker rather than
a literal" (a default-function marker string). -/
def is_default_function : PyVal → Bool
  | PyVal.vFuncMarker _ => true
  | _ => false

/-- The field-describe dict of tortoise's `Model.describe()` as read by
`BaseDDL`: only the keys the class accesses are modelled.  `default` is
`vNone` when the key is absent or `None`; the boolean keys default to
`False` when absent, matching `dict.get` semantics in the source. -/
structure FieldDescribe where
  db_column : String
  field_type : String
  db_field_types : List (String × String)
  nullable : Bool
  unique : Bool
  description : Option String
  default : PyVal
  auto_now_add : Bool
  auto_now : Bool
deriving DecidableEq

/-- `dict.get(key)` on a string-keyed dict modelled as an association list
(keys unique, first match wins). -/
def dictGet (m : List (String × String)) (k : String) : Option String :=
  match m with
  | [] => none
  | (k', v) :: rest => if k' = k then some v else dictGet rest k

/-- The model metadata (`model._meta`) as read by the methods under claim:
only the db table name is accessed. -/
structure Model where
  db_table : String
deriving DecidableEq

/-- The external Schema Introspector (tortoise `BaseSchemaGenerator`),
abstract: a record of the six generator entry points `BaseDDL` delegates to.
`column_default_generator` returns `Except.error ()` where the Python method
raises `NotImplementedError` (the only exception the source catches). -/
structure SchemaGenerator where
  column_default_generator : String → String → PyVal → Bool → Bool → Except Unit String
  escape_default_value : PyVal → PyVal
  create_string : String → Option String → String → String → String → Bool → String → String
  column_comment_generator : String → String → String → String
  generate_index_name : String → Model → List String → String
  quote : String → String

/-- `SqliteSchemaGenerator.DIALECT` from tortoise (external constant used by
`_add_or_modify_column` to detect the SQLite dialect). -/
def SqliteDIALECT : String := "sqlite"

/-- The DDL compiler: the dialect tag (class attribute `DIALECT`, `"sql"` on
the base class, overridden per dialect) and the schema generator instance. -/
structure BaseDDL where
  DIALECT : String := "sql"
  schema_generator : SchemaGenerator

/- The statement templates of `BaseDDL`, as functions of their placeholders.
Python's `str.format` ignores keyword arguments without a matching
placeholder, so each template takes exactly the placeholders it names. -/

def DROP_TABLE_TEMPLATE (table_name : String) : String :=
  "DROP TABLE IF EXISTS \"" ++ table_name ++ "\""

def ADD_COLUMN_TEMPLATE (table_name column : String) : String :=
  "ALTER TABLE \"" ++ table_name ++ "\" ADD " ++ column

def MODIFY_COLUMN_TEMPLATE (table_name column : String) : String :=
  "ALTER TABLE \"" ++ table_name ++ "\" MODIFY COLUMN " ++ column

def ALTER_DEFAULT_TEMPLATE (table_name column default : String) : String :=
  "ALTER TABLE \"" ++ table_name ++ "\" ALTER COLUMN \"" ++ column ++ "\" " ++ default

def ADD_INDEX_TEMPLATE (table_name uniq index_name column_names : String) : String :=
  "ALTER TABLE \"" ++ table_name ++ "\" ADD " ++ uniq ++ "INDEX \"" ++ index_name
    ++ "\" (" ++ column_names ++ ")"

def DROP_INDEX_TEMPLATE (table_name index_name : String) : String :=
  "ALTER TABLE \"" ++ table_name ++ "\" DROP INDEX \"" ++ index_name ++ "\""

def RENAME_TABLE_TEMPLATE (old_table_name new_table_name : String) : String :=
  "ALTER TABLE \"" ++ old_table_name ++ "\" RENAME TO \"" ++ new_table_name ++ "\""

/-- `drop_table`: fills `_DROP_TABLE_TEMPLATE` with the given name. -/
def drop_table (_D : BaseDDL) (table_name : String) : String :=
  DROP_TABLE_TEMPLATE table_name

/-- `drop_m2m`: also fills `_DROP_TABLE_TEMPLATE` with the given name. -/
def drop_m2m (_D : BaseDDL) (table_name : String) : String :=
  DROP_TABLE_TEMPLATE table_name

/-- The `isinstance(default, Enum)` substitution at the top of
`_get_default`: an enum member is replaced by its underlying `.value`. -/
def enumValue : PyVal → PyVal
  | PyVal.vEnum v => v
  | d => d

/-- `BaseDDL._get_default`, translated statement by statement.  Returns
`none` where the Python code returns `None` and `some s` where it returns
the string `s` (the empty string in the non-literal branches, the
generator's output otherwise). -/
def _get_default (D : BaseDDL) (model : Model) (fd : FieldDescribe) : Option String :=
  let db_table := model.db_table
  let default := enumValue fd.default
  let db_column := fd.db_column
  let auto_now_add := fd.auto_now_add
  let auto_now := fd.auto_now
  if default ≠ PyVal.vNone ∨ auto_now_add then
    if fd.field_type ∈ ["UUIDField", "TextField", "JSONField"]
        ∨ is_default_function default then
      some ""
    else
      match D.schema_generator.column_default_generator db_table db_column
          (D.schema_generator.escape_default_value default) auto_now_add auto_now with
      | Except.ok s => some s
      | Except.error _ => some ""
  else
    none

/-- The `field_type=db_field_types.get(self.DIALECT, db_field_types.get(""))`
expression of `_add_or_modify_column`: the dialect-specific entry if present,
otherwise the empty-dialect entry (which may itself be absent). -/
def resolvedFieldType (D : BaseDDL) (fd : FieldDescribe) : Option String :=
  match dictGet fd.db_field_types D.DIALECT with
  | some t => some t
  | none => dictGet fd.db_field_types ""

/-- The `unique` fragment computed in `_add_or_modify_column`: empty when
modifying; `"UNIQUE"` when adding a column whose descriptor is unique and
the dialect is not SQLite (sqlite does not support ALTER TABLE ADD of a
unique column); empty otherwise. -/
def uniqueArg (D : BaseDDL) (fd : FieldDescribe) (modify : Bool) : String :=
  if modify then ""
  else if fd.unique && !(D.DIALECT == SqliteDIALECT) then "UNIQUE" else ""

/-- The `comment` argument of the `_create_string` call: generated only when
`description` is truthy (Python truthiness: present and non-empty). -/
def commentArg (D : BaseDDL) (db_table db_column : String)
    (description : Option String) : String :=
  match description with
  | some s => if s.isEmpty then "" else D.schema_generator.column_comment_generator db_table db_column s
  | none => ""

/-- `BaseDDL._add_or_modify_column`: resolves the default (coercing the
`None` result to the empty string), the unique fragment and the template,
then delegates column-fragment rendering to `_create_string`. -/
def _add_or_modify_column (D : BaseDDL) (model : Model) (fd : FieldDescribe)
    (is_pk : Bool) (modify : Bool := false) : String :=
  let db_table := model.db_table
  let description := fd.description
  let db_column := fd.db_column
  let default := (_get_default D model fd).getD ""
  let uniq := uniqueArg D fd modify
  let column := D.schema_generator.create_string db_column (resolvedFieldType D fd)
      (if fd.nullable then "" else "NOT NULL") uniq
      (commentArg D db_table db_column description) is_pk default
  if modify then MODIFY_COLUMN_TEMPLATE db_table column
  else ADD_COLUMN_TEMPLATE db_table column

/-- `BaseDDL.add_column`. -/
def add_column (D : BaseDDL) (model : Model) (fd : FieldDescribe)
    (is_pk : Bool := false) : String :=
  _add_or_modify_column D model fd is_pk

/-- `BaseDDL.modify_column`. -/
def modify_column (D : BaseDDL) (model : Model) (fd : FieldDescribe)
    (is_pk : Bool := false) : String :=
  _add_or_modify_column D model fd is_pk true

/-- `BaseDDL.alter_column_default`: `"SET" + default` when `_get_default`
returned a string (note: no separating space of its own, and the string may
be empty), `"DROP DEFAULT"` when it returned `None`. -/
def alter_column_default (D : BaseDDL) (model : Model) (fd : FieldDescribe) : String :=
  let db_table := model.db_table
  let default := _get_default D model fd
  ALTER_DEFAULT_TEMPLATE db_table fd.db_column
    (match default with
     | some d => "SET" ++ d
     | none => "DROP DEFAULT")

/-- `BaseDDL.add_index`: kind tag `"idx"` when not unique, `"uid"` when
unique, passed to the generator together with the model and field list. -/
def add_index (D : BaseDDL) (model : Model) (field_names : List String)
    (unique : Bool := false) : String :=
  ADD_INDEX_TEMPLATE model.db_table (if unique then "UNIQUE " else "")
    (D.schema_generator.generate_index_name (if !unique then "idx" else "uid")
      model field_names)
    (String.intercalate ", " (field_names.map D.schema_generator.quote))

/-- `BaseDDL.drop_index`: recomputes the index name with the same generator
call as `add_index`. -/
def drop_index (D : BaseDDL) (model : Model) (field_names : List String)
    (unique : Bool := false) : String :=
  DROP_INDEX_TEMPLATE model.db_table
    (D.schema_generator.generate_index_name (if !unique then "idx" else "uid")
      model field_names)

/-- `BaseDDL.drop_index_by_name`. -/
def drop_index_by_name (_D : BaseDDL) (model : Model) (index_name : String) : String :=
  DROP_INDEX_TEMPLATE model.db_table index_name

/-- `BaseDDL.rename_table`: the local `db_table` is computed from the model
but the rename template has no `table_name` placeholder, and Python's
`str.format` silently drops keyword arguments without a placeholder, so only
the explicit old/new names reach the output. -/
def rename_table (_D : BaseDDL) (model : Model)
    (old_table_name new_table_name : String) : String :=
  let _db_table := model.db_table
  RENAME_TABLE_TEMPLATE old_table_name new_table_name

/-!
State-threaded translation.  The Python methods receive `field_describe` as
a mutable dict; to make the frame property (the descriptor is unchanged by a
call) a statement rather than an artifact of a pure embedding, each method
is re-translated with the descriptor threaded as explicit state: every
`field_describe.get(...)` becomes a read effect returning the value and the
post-read state, and the method's result is paired with the final state.
-/

/-- A read effect on the descriptor state: `dict.get` returns a value and
leaves the dict as the continuation's state. -/
def readSt {α : Type} (f : FieldDescribe → α) (fd : FieldDescribe) :
    α × FieldDescribe :=
  (f fd, fd)

/-- `_get_default` with the descriptor threaded as state. -/
def _get_default_st (D : BaseDDL) (model : Model) (fd0 : FieldDescribe) :
    Option String × FieldDescribe :=
  let db_table := model.db_table
  let (d0, fd1) := readSt (fun s => s.default) fd0
  let default := enumValue d0
  let (db_column, fd2) := readSt (fun s => s.db_column) fd1
  let (auto_now_add, fd3) := readSt (fun s => s.auto_now_add) fd2
  let (auto_now, fd4) := readSt (fun s => s.auto_now) fd3
  if default ≠ PyVal.vNone ∨ auto_now_add then
    let (ft, fd5) := readSt (fun s => s.field_type) fd4
    if ft ∈ ["UUIDField", "TextField", "JSONField"]
        ∨ is_default_function default then
      (some "", fd5)
    else
      match D.schema_generator.column_default_generator db_table db_column
          (D.schema_generator.escape_default_value default) auto_now_add auto_now with
      | Except.ok s => (some s, fd5)
      | Except.error _ => (some "", fd5)
  else
    (none, fd4)

/-- `_add_or_modify_column` with the descriptor threaded as state. -/
def _add_or_modify_column_st (D : BaseDDL) (model : Model) (fd0 : FieldDescribe)
    (is_pk : Bool) (modify : Bool) : String × FieldDescribe :=
  let db_table := model.db_table
  let (description, fd1) := readSt (fun s => s.description) fd0
  let (db_column, fd2) := readSt (fun s => s.db_column) fd1
  let (dft, fd3) := readSt (fun s => s.db_field_types) fd2
  let (d0, fd4) := _get_default_st D model fd3
  let default := d0.getD ""
  let (uflag, fd5) := readSt (fun s => s.unique) fd4
  let uniq :=
    if modify then ""
    else if uflag && !(D.DIALECT == SqliteDIALECT) then "UNIQUE" else ""
  let (nul, fd6) := readSt (fun s => s.nullable) fd5
  let column := D.schema_generator.create_string db_column
      (match dictGet dft D.DIALECT with
       | some t => some t
       | none => dictGet dft "")
      (if nul then "" else "NOT NULL") uniq
      (commentArg D db_table db_column description) is_pk default
  (if modify then MODIFY_COLUMN_TEMPLATE db_table column
   else ADD_COLUMN_TEMPLATE db_table column, fd6)

/-- `add_column` with the descriptor threaded as state. -/
def add_column_st (D : BaseDDL) (model : Model) (fd : FieldDescribe)
    (is_pk : Bool := false) : String × FieldDescribe :=
  _add_or_modify_column_st D model fd is_pk false

/-- `modify_column` with the descriptor threaded as state. -/
def modify_column_st (D : BaseDDL) (model : Model) (fd : FieldDescribe)
    (is_pk : Bool := false) : String × FieldDescribe :=
  _add_or_modify_column_st D model fd is_pk true

/-- `alter_column_default` with the descriptor threaded as state. -/
def alter_column_default_st (D : BaseDDL) (model : Model) (fd0 : FieldDescribe) :
    String × FieldDescribe :=
  let db_table := model.db_table
  let (default, fd1) := _get_default_st D model fd0
  let (db_column, fd2) := readSt (fun s => s.db_column) fd1
  (ALTER_DEFAULT_TEMPLATE db_table db_column
    (match default with
     | some d => "SET" ++ d
     | none => "DROP DEFAULT"), fd2)

/-!
Concrete fixtures: a small schema generator in the style of tortoise's
(leading-space default clauses, quoted identifiers), one variant whose
default-clause generator always raises `NotImplementedError`, and sample
models / field describes used to evaluate the theorems on closed inputs.
-/

/-- A concrete schema generator for evaluating the compiler on closed
inputs, rendering fragments in the style of tortoise's generators. -/
def exGen : SchemaGenerator where
  column_default_generator := fun _ _ v ana _ =>
    if ana then Except.ok " DEFAULT CURRENT_TIMESTAMP"
    else
      match v with
      | PyVal.vInt n => Except.ok (" DEFAULT " ++ toString n)
      | PyVal.vStr s => Except.ok (" DEFAULT '" ++ s ++ "'")
      | PyVal.vBool b => Except.ok (" DEFAULT " ++ if b then "1" else "0")
      | _ => Except.error ()
  escape_default_value := fun v => v
  create_string := fun c t n u cm pk d =>
    "\"" ++ c ++ "\" " ++ t.getD "" ++ n ++ u ++ cm
      ++ (if pk then " PRIMARY KEY" else "") ++ d
  column_comment_generator := fun _ _ cm => " COMMENT '" ++ cm ++ "'"
  generate_index_name := fun q m fns =>
    q ++ "_" ++ m.db_table ++ "_" ++ String.intercalate "_" fns
  quote := fun s => "\"" ++ s ++ "\""

/-- A schema generator whose default-clause generator always signals
`NotImplementedError`. -/
def errGen : SchemaGenerator :=
  { exGen with column_default_generator := fun _ _ _ _ _ => Except.error () }

/-- A compiler instance on the base dialect tag. -/
def exDdl : BaseDDL := { DIALECT := "sql", schema_generator := exGen }

/-- A compiler instance on the SQLite dialect tag. -/
def sqliteDdl : BaseDDL := { DIALECT := "sqlite", schema_generator := exGen }

/-- A compiler instance whose generator cannot render any default. -/
def errDdl : BaseDDL := { DIALECT := "sql", schema_generator := errGen }

/-- A sample model with db table `t`. -/
def exModel : Model := { db_table := "t" }

/-- A JSON field carrying a default: its type is in the
non-literal-default list of `_get_default`. -/
def exFdJson : FieldDescribe :=
  { db_column := "c", field_type := "JSONField", db_field_types := [("", "JSON")],
    nullable := true, unique := false, description := none,
    default := PyVal.vStr "x", auto_now_add := false, auto_now := false }

/-- An int field carrying a literal default: it reaches the
literal-default rendering step of `_get_default`. -/
def exFdInt : FieldDescribe :=
  { db_column := "c", field_type := "IntField", db_field_types := [("", "INT")],
    nullable := false, unique := true, description := none,
    default := PyVal.vInt 1, auto_now_add := false, auto_now := false }

/-!
Helper lemmas shared by the claim theorems.
-/

/-- Under the branch guard `default is not None or auto_now_add`,
`_get_default` always returns a string (possibly empty), never `None`. -/
lemma get_default_isSome_of (D : BaseDDL) (m : Model) (fd : FieldDescribe)
    (h : enumValue fd.default ≠ PyVal.vNone ∨ fd.auto_now_add = true) :
    (_get_default D m fd).isSome = true := by
  unfold _get_default
  rw [if_pos h]
  split
  · rfl
  · split <;> rfl

/-- Looking up any key other than the empty string in a type map whose
keys are all empty yields nothing. -/
lemma dictGet_ne_empty (l : List (String × String))
    (h : ∀ p ∈ l, p.1 = "") (k : String) (hk : k ≠ "") :
    dictGet l k = none := by
  induction l with
  | nil => rfl
  | cons p rest ih =>
      have hp : p.1 = "" := h p (List.mem_cons_self p rest)
      obtain ⟨k', v⟩ := p
      simp only [dictGet]
      rw [if_neg (by simp only at hp; rw [hp]; exact fun he => hk he.symm)]
      exact ih (fun q hq => h q (List.mem_cons_of_mem _ hq))

/-- When the type map has only empty-string keys, the dialect lookup of
`_add_or_modify_column` resolves to the empty-key entry for every dialect. -/
lemma resolvedFieldType_all_empty (D : BaseDDL) (fd : FieldDescribe)
    (h : ∀ p ∈ fd.db_field_types, p.1 = "") :
    resolvedFieldType D fd = dictGet fd.db_field_types "" := by
  unfold resolvedFieldType
  by_cases hd : D.DIALECT = ""
  · rw [hd]
    cases hmm : dictGet fd.db_field_types "" <;> simp [hmm]
  · rw [dictGet_ne_empty fd.db_field_types h D.DIALECT hd]

/-- The state-threaded `_get_default` computes the pure `_get_default` and
leaves the descriptor untouched. -/
lemma get_default_st_spec (D : BaseDDL) (m : Model) (fd : FieldDescribe) :
    _get_default_st D m fd = (_get_default D m fd, fd) := by
  by_cases h1 : enumValue fd.default ≠ PyVal.vNone ∨ fd.auto_now_add = true
  · simp only [_get_default_st, _get_default, readSt, if_pos h1]
    split
    · rfl
    · split <;> rfl
  · simp [_get_default_st, _get_default, readSt, h1]

/-- The state-threaded `_add_or_modify_column` computes the pure version
and leaves the descriptor untouched. -/
lemma add_or_modify_st_spec (D : BaseDDL) (m : Model) (fd : FieldDescribe)
    (pk modify : Bool) :
    _add_or_modify_column_st D m fd pk modify
      = (_add_or_modify_column D m fd pk modify, fd) := by
  cases modify <;>
    simp [_add_or_modify_column_st, _add_or_modify_column, readSt,
      get_default_st_spec, resolvedFieldType, uniqueArg]

/-- The state-threaded `alter_column_default` computes the pure version and
leaves the descriptor untouched. -/
lemma alter_column_default_st_spec (D : BaseDDL) (m : Model) (fd : FieldDescribe) :
    alter_column_default_st D m fd = (alter_column_default D m fd, fd) := by
  simp [alter_column_default_st, alter_column_default, readSt, get_default_st_spec]

/-!
Claim theorems.
-/

/-- C1, counterexample: on a JSON field with a default set, `_get_default`
resolves to the empty string, yet `alter_column_default` does not omit the
clause: it renders the bare dangling word `SET` as the trailing clause
(the statement is `ALTER TABLE "t" ALTER COLUMN "c" SET`). -/
theorem C1_counterexample :
    _get_default exDdl exModel exFdJson = some "" ∧
    alter_column_default exDdl exModel exFdJson
      = "ALTER TABLE \"t\" ALTER COLUMN \"c\" SET" := by
  constructor <;> rfl

/-- C1, amended: `alter_column_default` renders the trailing clause
`DROP DEFAULT` exactly when default resolution yields no default (`None`),
and `"SET" ++ d` when resolution yields the string `d`; in particular when
resolution yields the empty-string result the statement does not omit the
DEFAULT clause but ends in the dangling fragment `SET`. -/
theorem C1_amended_thm (D : BaseDDL) (m : Model) (fd : FieldDescribe) :
    (_get_default D m fd = none →
      alter_column_default D m fd
        = ALTER_DEFAULT_TEMPLATE m.db_table fd.db_column "DROP DEFAULT") ∧
    (∀ d, _get_default D m fd = some d →
      alter_column_default D m fd
        = ALTER_DEFAULT_TEMPLATE m.db_table fd.db_column ("SET" ++ d)) ∧
    (_get_default D m fd = some "" →
      alter_column_default D m fd
        = ALTER_DEFAULT_TEMPLATE m.db_table fd.db_column "SET") := by
  refine ⟨?_, ?_, ?_⟩
  · intro h; simp [alter_column_default, h]
  · intro d h; simp [alter_column_default, h]
  · intro h; simp [alter_column_default, h, String.append_empty]

/-- C2: the `unique` fragment passed into the rendered column fragment is
`UNIQUE` exactly when `modify` is false, the descriptor's unique flag is
set and the dialect is not SQLite; consequently `add_column` on the SQLite
dialect is insensitive to the unique flag, on any other dialect a unique
descriptor yields the `UNIQUE` fragment, and `modify_column` always uses
the MODIFY COLUMN template with an empty unique fragment. -/
theorem C2_thm (D : BaseDDL) (m : Model) (fd : FieldDescribe) :
    (∀ modify : Bool, uniqueArg D fd modify = "UNIQUE"
        ↔ (modify = false ∧ fd.unique = true ∧ D.DIALECT ≠ SqliteDIALECT)) ∧
    (D.DIALECT = SqliteDIALECT →
      ∀ pk, add_column D m { fd with unique := true } pk
          = add_column D m { fd with unique := false } pk) ∧
    (D.DIALECT ≠ SqliteDIALECT →
      uniqueArg D { fd with unique := true } false = "UNIQUE") ∧
    (∀ pk, modify_column D m fd pk
        = MODIFY_COLUMN_TEMPLATE m.db_table
            (D.schema_generator.create_string fd.db_column (resolvedFieldType D fd)
              (if fd.nullable then "" else "NOT NULL") ""
              (commentArg D m.db_table fd.db_column fd.description) pk
              ((_get_default D m fd).getD ""))) := by
  refine ⟨?_, ?_, ?_, ?_⟩
  · intro modify
    cases modify with
    | false =>
        by_cases hu : fd.unique <;> by_cases hd : D.DIALECT = SqliteDIALECT <;>
          simp [uniqueArg, hu, hd]
    | true => simp [uniqueArg]
  · intro hd pk
    simp [add_column, _add_or_modify_column, uniqueArg, hd, _get_default,
      resolvedFieldType]
  · intro hd
    have hb : (D.DIALECT == SqliteDIALECT) = false := beq_eq_false_iff_ne.mpr hd
    simp [uniqueArg, hb]
  · intro pk; rfl

/-- C3: when a default is set (or auto_now_add holds) and the field's type
is UUIDField, TextField or JSONField, or the default is the opaque
default-function marker, `_get_default` resolves to the empty string, and
`add_column` produces exactly the statement it would produce for the same
descriptor with no default at all (no DEFAULT clause). -/
theorem C3_thm (D : BaseDDL) (m : Model) (fd : FieldDescribe)
    (hset : enumValue fd.default ≠ PyVal.vNone ∨ fd.auto_now_add = true)
    (htype : fd.field_type ∈ ["UUIDField", "TextField", "JSONField"]
        ∨ is_default_function (enumValue fd.default) = true) :
    _get_default D m fd = some "" ∧
    ∀ pk, add_column D m fd pk
        = add_column D m { fd with default := PyVal.vNone, auto_now_add := false } pk := by
  have h0 : _get_default D m fd = some "" := by
    unfold _get_default
    rw [if_pos hset, if_pos htype]
  refine ⟨h0, ?_⟩
  intro pk
  have hR : _get_default D m { fd with default := PyVal.vNone, auto_now_add := false }
      = none := by
    simp [_get_default, enumValue]
  simp [add_column, _add_or_modify_column, h0, hR, resolvedFieldType, uniqueArg]

/-- C3, witness: the theorem applied to a JSON field with default set on a
concrete compiler. -/
theorem C3_witness :
    ((enumValue exFdJson.default ≠ PyVal.vNone ∨ exFdJson.auto_now_add = true) ∧
     (exFdJson.field_type ∈ ["UUIDField", "TextField", "JSONField"]
        ∨ is_default_function (enumValue exFdJson.default) = true)) ∧
    (_get_default exDdl exModel exFdJson = some "" ∧
     ∀ pk, add_column exDdl exModel exFdJson pk
        = add_column exDdl exModel
            { exFdJson with default := PyVal.vNone, auto_now_add := false } pk) :=
  ⟨⟨Or.inl (by decide), Or.inl (by decide)⟩,
   C3_thm exDdl exModel exFdJson (Or.inl (by decide)) (Or.inl (by decide))⟩

/-- C4: `_get_default` returns the distinguished no-default result `None`
exactly when the descriptor's default, after enum-value substitution, is
absent and auto_now_add is not set; every other branch returns a string. -/
theorem C4_thm (D : BaseDDL) (m : Model) (fd : FieldDescribe) :
    _get_default D m fd = none
      ↔ (enumValue fd.default = PyVal.vNone ∧ fd.auto_now_add = false) := by
  constructor
  · intro hn
    by_cases h : enumValue fd.default ≠ PyVal.vNone ∨ fd.auto_now_add = true
    · have hs := get_default_isSome_of D m fd h
      rw [hn] at hs
      simp at hs
    · push_neg at h
      exact ⟨h.1, Bool.eq_false_iff.mpr h.2⟩
  · rintro ⟨h1, h2⟩
    unfold _get_default
    rw [if_neg (by simp [h1, h2])]

/-- C5: when a descriptor reaches the literal-default rendering step and
the Introspector's default-clause generator signals `NotImplementedError`,
`_get_default` recovers locally with the empty-string default, and the
callers `add_column`, `modify_column` and `alter_column_default` still
return complete statements (the column fragment carries an empty default
fragment; the alter statement carries the bare `SET` clause). -/
theorem C5_thm (D : BaseDDL) (m : Model) (fd : FieldDescribe)
    (hreach : enumValue fd.default ≠ PyVal.vNone ∨ fd.auto_now_add = true)
    (hlit : ¬(fd.field_type ∈ ["UUIDField", "TextField", "JSONField"]
        ∨ is_default_function (enumValue fd.default) = true))
    (herr : D.schema_generator.column_default_generator m.db_table fd.db_column
        (D.schema_generator.escape_default_value (enumValue fd.default))
        fd.auto_now_add fd.auto_now = Except.error ()) :
    _get_default D m fd = some "" ∧
    (∀ pk, add_column D m fd pk = ADD_COLUMN_TEMPLATE m.db_table
        (D.schema_generator.create_string fd.db_column (resolvedFieldType D fd)
          (if fd.nullable then "" else "NOT NULL") (uniqueArg D fd false)
          (commentArg D m.db_table fd.db_column fd.description) pk "")) ∧
    (∀ pk, modify_column D m fd pk = MODIFY_COLUMN_TEMPLATE m.db_table
        (D.schema_generator.create_string fd.db_column (resolvedFieldType D fd)
          (if fd.nullable then "" else "NOT NULL") ""
          (commentArg D m.db_table fd.db_column fd.description) pk "")) ∧
    alter_column_default D m fd
      = ALTER_DEFAULT_TEMPLATE m.db_table fd.db_column "SET" := by
  have h0 : _get_default D m fd = some "" := by
    unfold _get_default
    rw [if_pos hreach, if_neg hlit, herr]
  refine ⟨h0, ?_, ?_, ?_⟩
  · intro pk; simp [add_column, _add_or_modify_column, h0]
  · intro pk; simp [modify_column, _add_or_modify_column, h0, uniqueArg]
  · simp [alter_column_default, h0, String.append_empty]

/-- C5, witness: the theorem applied to an int field with a literal default
on a compiler whose generator always signals `NotImplementedError`. -/
theorem C5_witness :
    ((enumValue exFdInt.default ≠ PyVal.vNone ∨ exFdInt.auto_now_add = true) ∧
     ¬(exFdInt.field_type ∈ ["UUIDField", "TextField", "JSONField"]
        ∨ is_default_function (enumValue exFdInt.default) = true) ∧
     errDdl.schema_generator.column_default_generator exModel.db_table exFdInt.db_column
       (errDdl.schema_generator.escape_default_value (enumValue exFdInt.default))
       exFdInt.auto_now_add exFdInt.auto_now = Except.error ()) ∧
    _get_default errDdl exModel exFdInt = some "" :=
  ⟨⟨Or.inl (by decide), by decide, rfl⟩,
   (C5_thm errDdl exModel exFdInt (Or.inl (by decide)) (by decide) rfl).1⟩

/-- C6: `add_index` and `drop_index` both embed the index name computed by
the deterministic generator at the same arguments — the kind tag `uid` when
unique else `idx`, the model, and the field list — so `drop_index` on the
same inputs coincides with `drop_index_by_name` at exactly the name
`add_index` embedded. -/
theorem C6_thm (D : BaseDDL) (m : Model) (fns : List String) (unique : Bool) :
    add_index D m fns unique
      = ADD_INDEX_TEMPLATE m.db_table (if unique then "UNIQUE " else "")
          (D.schema_generator.generate_index_name (if unique then "uid" else "idx") m fns)
          (String.intercalate ", " (fns.map D.schema_generator.quote)) ∧
    drop_index D m fns unique
      = drop_index_by_name D m
          (D.schema_generator.generate_index_name (if unique then "uid" else "idx") m fns) := by
  cases unique <;> exact ⟨rfl, rfl⟩

/-- C7: `drop_table` and `drop_m2m` are extensionally equal and always
render the IF EXISTS guard; the statement text is a function of the table
name alone, hence stable across repeated calls. -/
theorem C7_thm (D : BaseDDL) (table_name : String) :
    drop_table D table_name = drop_m2m D table_name ∧
    drop_table D table_name = "DROP TABLE IF EXISTS \"" ++ table_name ++ "\"" :=
  ⟨rfl, rfl⟩

/-- C8: the column SQL type is resolved as the dialect-specific entry of
`db_field_types` when present and as the empty-string-key entry otherwise;
when the map has only empty-string keys every dialect's compiler resolves
the same type string; and `add_column` passes exactly this resolution into
the rendered column fragment. -/
theorem C8_thm (D D' : BaseDDL) (m : Model) (fd : FieldDescribe) :
    (∀ t, dictGet fd.db_field_types D.DIALECT = some t →
      resolvedFieldType D fd = some t) ∧
    (dictGet fd.db_field_types D.DIALECT = none →
      resolvedFieldType D fd = dictGet fd.db_field_types "") ∧
    ((∀ p ∈ fd.db_field_types, p.1 = "") →
      resolvedFieldType D fd = resolvedFieldType D' fd) ∧
    (∀ pk, add_column D m fd pk = ADD_COLUMN_TEMPLATE m.db_table
        (D.schema_generator.create_string fd.db_column (resolvedFieldType D fd)
          (if fd.nullable then "" else "NOT NULL") (uniqueArg D fd false)
          (commentArg D m.db_table fd.db_column fd.description) pk
          ((_get_default D m fd).getD ""))) := by
  refine ⟨?_, ?_, ?_, ?_⟩
  · intro t h; unfold resolvedFieldType; rw [h]
  · intro h; unfold resolvedFieldType; rw [h]
  · intro h
    rw [resolvedFieldType_all_empty D fd h, resolvedFieldType_all_empty D' fd h]
  · intro pk; rfl

/-- C9: the compiler never mutates the field descriptor: in the
state-threaded translation, `_get_default`, `add_column`, `modify_column`
and `alter_column_default` leave the descriptor state exactly as given,
agree with the pure translation, and a repeated `_get_default` call on the
post-call descriptor recomputes the same result (nothing is cached). -/
theorem C9_thm (D : BaseDDL) (m : Model) (fd : FieldDescribe) (pk : Bool) :
    (_get_default_st D m fd).2 = fd ∧
    (_get_default_st D m fd).1 = _get_default D m fd ∧
    (add_column_st D m fd pk).2 = fd ∧
    (add_column_st D m fd pk).1 = add_column D m fd pk ∧
    (modify_column_st D m fd pk).2 = fd ∧
    (modify_column_st D m fd pk).1 = modify_column D m fd pk ∧
    (alter_column_default_st D m fd).2 = fd ∧
    (alter_column_default_st D m fd).1 = alter_column_default D m fd ∧
    (_get_default_st D m ((_get_default_st D m fd).2)).1 = (_get_default_st D m fd).1 := by
  refine ⟨?_, ?_, ?_, ?_, ?_, ?_, ?_, ?_, ?_⟩ <;>
    simp [get_default_st_spec, add_or_modify_st_spec, alter_column_default_st_spec,
      add_column_st, modify_column_st, add_column, modify_column]

/-- C10: `rename_table` depends only on the explicit old and new names —
two models with arbitrary db-table names yield the identical statement
`ALTER TABLE "<old>" RENAME TO "<new>"`; the model's table name has no slot
in the rename template. -/
theorem C10_thm (D : BaseDDL) (m1 m2 : Model) (old_name new_name : String) :
    rename_table D m1 old_name new_name = rename_table D m2 old_name new_name ∧
    rename_table D m1 old_name new_name
      = "ALTER TABLE \"" ++ old_name ++ "\" RENAME TO \"" ++ new_name ++ "\"" :=
  ⟨rfl, rfl⟩

end Aerich
